import Mathlib

/-!
# Verification of the datalytics-ai orchestration contract

A shallow embedding of the repository's agent layer:

* `src/agents/statistical.py`  — `run_statistical_analysis`
* `src/agents/anomaly.py`      — `run_anomaly_detection`
* `src/agents/visualization.py`— `create_visualizations`
* `src/agents/coordinator.py`  — `synthesize_insights`
* `src/main.py`                — `parse_insights`, `build_insights_html`,
  `format_anomalies`

External collaborators (the sandbox client, the prompted code generator,
pandas/matplotlib, the filesystem) are modelled as environments recording the
outcome of each external call: each call either returns a value or raises a
Python exception (`PyErr`).  Pure Python code is translated directly.  Python
dictionaries are insertion-ordered association lists, Python `str` operations
are re-implemented over `List Char`.
-/

/-- A raised Python exception, identified by its `str(e)` rendering. -/
structure PyErr where
  msg : String
deriving DecidableEq, Repr

/-- Python values as they occur in the agents\x27 result dictionaries and in
parsed JSON: strings, ints, booleans, `None`, lists and (insertion-ordered)
dicts. -/
inductive PyVal where
  | str : String → PyVal
  | int : Int → PyVal
  | bool : Bool → PyVal
  | none : PyVal
  | list : List PyVal → PyVal
  | dict : List (String × PyVal) → PyVal

/-- A Python dictionary with string keys: an insertion-ordered association
list (keys kept unique by `setKey`). -/
abbrev PyDict := List (String × PyVal)

/-- Python `d[k]` / `k in d`: first (unique) binding of `k`. -/
def dictGet? (d : PyDict) (k : String) : Option PyVal :=
  match d with
  | [] => Option.none
  | (k', v) :: t => if k' = k then some v else dictGet? t k

/-- Python `d.get(k, dflt)`. -/
def dictGetD (d : PyDict) (k : String) (dflt : PyVal) : PyVal :=
  match dictGet? d k with
  | some v => v
  | Option.none => dflt

/-- Python `d[k] = v`: overwrite in place when the key exists, else append at
the end (insertion order). -/
def setKey {α : Type} (d : List (String × α)) (k : String) (v : α) :
    List (String × α) :=
  match d with
  | [] => [(k, v)]
  | (k', v') :: t => if k' = k then (k, v) :: t else (k', v') :: setKey t k v

/-! ## Python string primitives, over `List Char` -/

/-- The characters Python's `str.strip()` removes (the common ASCII
whitespace; Python also strips rarer unicode whitespace, unused here). -/
def pyIsWs (c : Char) : Bool :=
  c = ' ' || c = '\t' || c = '\n' || c = '\r'

/-- `str.strip()` on a character list. -/
def stripChars (cs : List Char) : List Char :=
  ((cs.dropWhile pyIsWs).reverse.dropWhile pyIsWs).reverse

/-- Python `s.strip()`. -/
def pyStrip (s : String) : String := String.mk (stripChars s.data)

/-- Python `s.startswith(pre)`. -/
def pyStartsWith (s pre : String) : Bool := pre.data.isPrefixOf s.data

/-- Python `s.lower()` (ASCII model). -/
def pyLower (s : String) : String := String.mk (s.data.map Char.toLower)

/-- Non-overlapping, left-to-right replacement, as Python `str.replace`;
`fuel` bounds the recursion (callers pass the text length, enough because a
non-empty pattern consumes at least one character per step). -/
def replaceChars : Nat → List Char → List Char → List Char → List Char
  | 0, cs, _, _ => cs
  | fuel + 1, cs, old, new =>
    match cs with
    | [] => []
    | a :: t =>
      if old.isPrefixOf (a :: t) then
        new ++ replaceChars fuel ((a :: t).drop old.length) old new
      else
        a :: replaceChars fuel t old new

/-- Python `s.replace(old, new)` (all occurrences). -/
def pyReplace (s old new : String) : String :=
  String.mk (replaceChars s.data.length s.data old.data new.data)

/-- Python `s.split(c)` for a one-character separator (keeps empty pieces). -/
def splitOnChar (cs : List Char) (c : Char) : List (List Char) :=
  match cs with
  | [] => [[]]
  | a :: t =>
    let r := splitOnChar t c
    if a = c then [] :: r
    else
      match r with
      | h :: t' => (a :: h) :: t'
      | [] => [[a]]

/-- Python `s.split(c)` on strings. -/
def pySplitChar (s : String) (c : Char) : List String :=
  (splitOnChar s.data c).map String.mk

/-- Python `s.split(c, 1)`: the part before the first `c`, and the rest when
`c` occurs. -/
def splitFirst (cs : List Char) (c : Char) : List Char × Option (List Char) :=
  match cs with
  | [] => ([], Option.none)
  | a :: t =>
    if a = c then ([], some t)
    else
      let (x, y) := splitFirst t c
      (a :: x, y)

/-- Python `s.split(c, 1)` on strings. -/
def pySplitFirst (s : String) (c : Char) : String × Option String :=
  let p := splitFirst s.data c
  (String.mk p.1, p.2.map String.mk)

/-- Python `needle in hay` for strings (character lists). -/
def containsSub (hay needle : List Char) : Bool :=
  needle.isPrefixOf hay ||
    match hay with
    | [] => false
    | _ :: t => containsSub t needle

/-- Python `hay.count(needle)`: non-overlapping occurrences, left to right;
`fuel` bounds the recursion (callers pass the text length). -/
def countOccurAux : Nat → List Char → List Char → Nat
  | 0, _, _ => 0
  | fuel + 1, hay, needle =>
    match hay with
    | [] => 0
    | _ :: t =>
      if needle.isPrefixOf hay then
        1 + countOccurAux fuel (hay.drop (max needle.length 1)) needle
      else
        countOccurAux fuel t needle

/-- Python `hay.count(needle)`. -/
def countOccur (hay needle : List Char) : Nat :=
  countOccurAux hay.length hay needle

/-- The `\x7b` character, written by code so that no brace appears in a
string literal. -/
def lbrace : Char := '\x7b'

/-- The `\x7d` character. -/
def rbrace : Char := '\x7d'

/-- Python `s.rfind(c)`: the highest index of `c` in `s`, `-1` when absent. -/
def pyRfind : List Char → Char → Int
  | [], _ => -1
  | a :: l, c =>
    let r := pyRfind l c
    if 0 ≤ r then r + 1
    else if a = c then 0
    else -1

/-- `i` is the index of the last occurrence of `c` in `cs`. -/
def isLastOcc (cs : List Char) (c : Char) (i : Nat) : Prop :=
  i < cs.length ∧ cs.getD i ' ' = c ∧ c ∉ cs.drop (i + 1)

instance (cs : List Char) (c : Char) (i : Nat) : Decidable (isLastOcc cs c i) := by
  unfold isLastOcc; infer_instance

/-- The JSON-extraction step shared by `run_statistical_analysis`
(`statistical.py:104-110`) and `run_anomaly_detection` (`anomaly.py:120-125`):

```
json_start = stdout_text.rfind('\x7b')
json_end = stdout_text.rfind('\x7d') + 1
if json_start >= 0 and json_end > json_start:
    json_str = stdout_text[json_start:json_end]
```

Returns the selected span, or `none` when no parse is attempted. -/
def extractJson (s : String) : Option String :=
  let cs := s.data
  let json_start := pyRfind cs lbrace
  let json_end := pyRfind cs rbrace + 1
  if 0 ≤ json_start ∧ json_start < json_end then
    some (String.mk ((cs.drop json_start.toNat).take (json_end - json_start).toNat))
  else
    Option.none

/-! ## A JSON parser (model of Python's `json.loads`)

`json.loads` is Python standard-library code, external to the repository; it
is modelled here on the fragment the agents exercise: objects, arrays,
strings, integers, booleans and null (floats and exponent notation are out of
the modelled fragment).  Parsing is fuel-bounded; the fuel passed by
`jsonLoads` always suffices because every recursion level consumes input. -/

/-- Skip JSON whitespace. -/
def skipWs : List Char → List Char
  | [] => []
  | c :: cs => if c = ' ' || c = '\n' || c = '\t' || c = '\r' then skipWs cs else c :: cs

/-- Parse the body of a JSON string literal after the opening quote,
returning the decoded text and the input after the closing quote. -/
def parseStringBody : Nat → List Char → Option (String × List Char)
  | 0, _ => Option.none
  | _, [] => Option.none
  | fuel + 1, c :: rest =>
    if c = '"' then some ("", rest)
    else if c = '\\' then
      match rest with
      | [] => Option.none
      | e :: rest2 =>
        let d : Char := if e = 'n' then '\n' else if e = 't' then '\t' else if e = 'r' then '\r' else e
        match parseStringBody fuel rest2 with
        | some (s, r) => some (String.mk (d :: s.data), r)
        | Option.none => Option.none
    else
      match parseStringBody fuel rest with
      | some (s, r) => some (String.mk (c :: s.data), r)
      | Option.none => Option.none

/-- Split a leading run of decimal digits. -/
def takeDigits : List Char → List Char × List Char
  | [] => ([], [])
  | c :: cs =>
    if c.isDigit then
      let p := takeDigits cs
      (c :: p.1, p.2)
    else ([], c :: cs)

/-- Decimal value of a digit run. -/
def digitsToNat (ds : List Char) : Nat :=
  ds.foldl (fun n c => n * 10 + (c.toNat - 48)) 0

mutual

/-- Parse one JSON value. -/
def parseVal : Nat → List Char → Option (PyVal × List Char)
  | 0, _ => Option.none
  | fuel + 1, cs0 =>
    match skipWs cs0 with
    | [] => Option.none
    | c :: rest =>
      if c = '"' then
        match parseStringBody (rest.length + 1) rest with
        | some (s, r) => some (PyVal.str s, r)
        | Option.none => Option.none
      else if c = lbrace then
        match skipWs rest with
        | [] => Option.none
        | d :: rest2 =>
          if d = rbrace then some (PyVal.dict [], rest2)
          else parseMembers fuel (d :: rest2) []
      else if c = '[' then
        match skipWs rest with
        | [] => Option.none
        | d :: rest2 =>
          if d = ']' then some (PyVal.list [], rest2)
          else parseItems fuel (d :: rest2) []
      else if c = '-' then
        match takeDigits rest with
        | ([], _) => Option.none
        | (ds, r) => some (PyVal.int (-(digitsToNat ds : Int)), r)
      else if c.isDigit then
        match takeDigits (c :: rest) with
        | (ds, r) => some (PyVal.int (digitsToNat ds), r)
      else if ("true".data).isPrefixOf (c :: rest) then
        some (PyVal.bool true, (c :: rest).drop 4)
      else if ("false".data).isPrefixOf (c :: rest) then
        some (PyVal.bool false, (c :: rest).drop 5)
      else if ("null".data).isPrefixOf (c :: rest) then
        some (PyVal.none, (c :: rest).drop 4)
      else Option.none

/-- Parse the members of a JSON object after the opening brace (at least one
member present).  Duplicate keys keep the last value, as Python does. -/
def parseMembers : Nat → List Char → PyDict → Option (PyVal × List Char)
  | 0, _, _ => Option.none
  | fuel + 1, cs, acc =>
    match skipWs cs with
    | [] => Option.none
    | c :: rest =>
      if c = '"' then
        match parseStringBody (rest.length + 1) rest with
        | some (k, r) =>
          match skipWs r with
          | ':' :: r2 =>
            match parseVal fuel r2 with
            | some (v, r3) =>
              let acc2 := setKey acc k v
              match skipWs r3 with
              | ',' :: r4 => parseMembers fuel r4 acc2
              | d :: r4 => if d = rbrace then some (PyVal.dict acc2, r4) else Option.none
              | [] => Option.none
            | Option.none => Option.none
          | _ => Option.none
        | Option.none => Option.none
      else Option.none

/-- Parse the items of a JSON array after the opening bracket (at least one
item present). -/
def parseItems : Nat → List Char → List PyVal → Option (PyVal × List Char)
  | 0, _, _ => Option.none
  | fuel + 1, cs, acc =>
    match parseVal fuel cs with
    | some (v, r) =>
      match skipWs r with
      | ',' :: r2 => parseItems fuel r2 (acc ++ [v])
      | d :: r2 => if d = ']' then some (PyVal.list (acc ++ [v]), r2) else Option.none
      | [] => Option.none
    | Option.none => Option.none

end

/-- Model of Python `json.loads(s)`: one value, whole input consumed. -/
def jsonLoads (s : String) : Option PyVal :=
  match parseVal (2 * s.data.length + 2) s.data with
  | some (v, rest) => if skipWs rest = [] then some v else Option.none
  | Option.none => Option.none

/-- `json.loads` restricted to objects.  The spans fed to it by the agents
always begin with a brace, so a successful parse is always an object; a
non-object success is routed to `none` (unreachable on those spans). -/
def jsonLoadsObj (s : String) : Option PyDict :=
  match jsonLoads s with
  | some (PyVal.dict kvs) => some kvs
  | _ => Option.none

/-! ## The remote agents (`statistical.py`, `anomaly.py`)

Each agent owns one sandbox session and one generator conversation.  The
external boundary (spec section 6) is an environment recording the outcome of
each call in program order; prompt construction (pure string interpolation)
is part of the request effects. -/

/-- A sandbox execution error (`execution.error`), with its message and the
optional `traceback` attribute. -/
structure ExecError where
  msg : String
  traceback : Option String
deriving DecidableEq, Repr

/-- The outcome of `sandbox.run_code`: the optional error, the captured
stdout lines (`execution.logs.stdout`) and the `str(r)` renderings of the
rich results (`execution.results`). -/
structure Execution where
  error : Option ExecError
  stdout : List String
  results : List String
deriving DecidableEq, Repr

/-- The generator's stop reason; anything other than a tool invocation is
collapsed into `end_turn`. -/
inductive StopReason where
  | tool_use
  | end_turn
deriving DecidableEq, Repr

/-- A generator response: its stop reason and, when it invoked the tool, the
generated program text (`tool_use.input["code"]`; the API guarantees a
tool-use block with a `code` argument whenever the stop reason is
`tool_use`). -/
structure GenResponse where
  stopReason : StopReason
  code : String
deriving DecidableEq, Repr

/-- One agent run's external world: the outcome of each external call, in
program order.  `interpRequest` is the follow-up generator call; `ok none`
models an empty `final_response.content` (no interpretation attached), and a
first content block without a `text` attribute is folded into its error
case. -/
structure AgentEnv where
  create : Except PyErr Unit
  upload : Except PyErr String
  firstRequest : Except PyErr GenResponse
  runCode : Except PyErr Execution
  interpRequest : Except PyErr (Option String)
  kill : Except PyErr Unit

/-- The `traceback` value stored by the statistical agent's execution-error
dict: the string when the attribute is present, Python `None` otherwise. -/
def tracebackVal : Option String → PyVal
  | some t => PyVal.str t
  | Option.none => PyVal.none

/-- `"\n".join(execution.logs.stdout)`. -/
def joinLines (ls : List String) : String := String.intercalate "\n" ls

/-- The exception raised by `sandbox.kill()()` (`anomaly.py:164`): `kill`
returns a boolean (the sandbox client's destroy step returns no callable,
spec section 6), and calling a boolean raises `TypeError`, whose `str` is
this message. -/
def killTypeError : PyErr := ⟨"\x27bool\x27 object is not callable"⟩

/-- The `try:` body of `run_statistical_analysis` (`statistical.py:22-150`),
as a pair of the outcome (result dict, or the exception that reaches the
`except`) and whether `sandbox.kill` was invoked. -/
def statTry (env : AgentEnv) : Except PyErr PyDict × Bool :=
  match env.create with
  | Except.error e => (Except.error e, false)
  | Except.ok _ =>
  match env.upload with
  | Except.error e => (Except.error e, false)
  | Except.ok _path =>
  match env.firstRequest with
  | Except.error e => (Except.error e, false)
  | Except.ok response =>
  let resultsE : Except PyErr PyDict :=
    if response.stopReason = StopReason.tool_use then
      match env.runCode with
      | Except.error e => Except.error e
      | Except.ok execution =>
        match execution.error with
        | some err =>
          Except.ok [("error", PyVal.str err.msg),
                     ("traceback", tracebackVal err.traceback)]
        | Option.none =>
          let stdout_text := joinLines execution.stdout
          let base : PyDict :=
            match extractJson stdout_text with
            | some span =>
              match jsonLoadsObj span with
              | some kvs => kvs
              | Option.none =>
                [("raw_output", PyVal.str stdout_text),
                 ("results", PyVal.list (execution.results.map PyVal.str))]
            | Option.none =>
              [("raw_output", PyVal.str stdout_text),
               ("results", PyVal.list (execution.results.map PyVal.str))]
          match env.interpRequest with
          | Except.error e => Except.error e
          | Except.ok Option.none => Except.ok base
          | Except.ok (some text) =>
            Except.ok (setKey base "interpretation" (PyVal.str text))
    else Except.ok []
  match resultsE with
  | Except.error e => (Except.error e, false)
  | Except.ok results =>
    match env.kill with
    | Except.error e => (Except.error e, true)
    | Except.ok _ => (Except.ok results, true)

/-- `run_statistical_analysis` (`statistical.py:10-154`): the `try:` body
wrapped in `except Exception as e: return ("error": str(e))`.  First
component: what the caller observes (`ok` result, or a propagated
exception — none exists); second: whether `kill` was invoked. -/
def run_statistical_analysis (env : AgentEnv) : Except PyErr PyDict × Bool :=
  match statTry env with
  | (Except.ok results, k) => (Except.ok results, k)
  | (Except.error e, k) => (Except.ok [("error", PyVal.str e.msg)], k)

/-- The `try:` body of `run_anomaly_detection` (`anomaly.py:22-168`).  It
differs from the statistical body in its error/fallback dict shapes and in
the cleanup line `sandbox.kill()()`, which (after invoking `kill`) calls the
returned boolean and therefore raises `TypeError` instead of returning. -/
def anomalyTry (env : AgentEnv) : Except PyErr PyDict × Bool :=
  match env.create with
  | Except.error e => (Except.error e, false)
  | Except.ok _ =>
  match env.upload with
  | Except.error e => (Except.error e, false)
  | Except.ok _path =>
  match env.firstRequest with
  | Except.error e => (Except.error e, false)
  | Except.ok response =>
  let resultsE : Except PyErr PyDict :=
    if response.stopReason = StopReason.tool_use then
      match env.runCode with
      | Except.error e => Except.error e
      | Except.ok execution =>
        match execution.error with
        | some err =>
          Except.ok [("error", PyVal.str err.msg),
                     ("outliers", PyVal.list []),
                     ("data_quality", PyVal.dict [])]
        | Option.none =>
          let stdout_text := joinLines execution.stdout
          let base : PyDict :=
            match extractJson stdout_text with
            | some span =>
              match jsonLoadsObj span with
              | some kvs => kvs
              | Option.none =>
                [("raw_output", PyVal.str stdout_text),
                 ("outliers", PyVal.list []),
                 ("data_quality", PyVal.dict [])]
            | Option.none =>
              [("raw_output", PyVal.str stdout_text),
               ("outliers", PyVal.list []),
               ("data_quality", PyVal.dict [])]
          match env.interpRequest with
          | Except.error e => Except.error e
          | Except.ok Option.none => Except.ok base
          | Except.ok (some text) =>
            Except.ok (setKey base "interpretation" (PyVal.str text))
    else Except.ok []
  match resultsE with
  | Except.error e => (Except.error e, false)
  | Except.ok _results =>
    match env.kill with
    | Except.error e => (Except.error e, true)
    | Except.ok _ => (Except.error killTypeError, true)

/-- `run_anomaly_detection` (`anomaly.py:10-172`): the `try:` body wrapped in
`except Exception as e: return ("error": str(e), "outliers": [],
"data_quality": ())`. -/
def run_anomaly_detection (env : AgentEnv) : Except PyErr PyDict × Bool :=
  match anomalyTry env with
  | (Except.ok results, k) => (Except.ok results, k)
  | (Except.error e, k) =>
    (Except.ok [("error", PyVal.str e.msg),
                ("outliers", PyVal.list []),
                ("data_quality", PyVal.dict [])], k)

/-! ## The local visualization agent (`visualization.py`) -/

/-- The pandas dtypes distinguished by `create_visualizations`:
`select_dtypes(include=['int64', 'float64'])` picks the numeric columns,
`select_dtypes(include=['object'])` the categorical ones. -/
inductive Dtype where
  | int64
  | float64
  | object
  | other
deriving DecidableEq, Repr

/-- The loaded dataframe, at the granularity the chart logic inspects:
column names with dtypes, in order. -/
structure DataFrame where
  columns : List (String × Dtype)
deriving DecidableEq, Repr

/-- Python `name in df.columns`. -/
def hasCol (df : DataFrame) (name : String) : Bool :=
  df.columns.any (fun p => p.1 == name)

/-- `df.select_dtypes(include=['int64', 'float64']).columns`. -/
def numericCols (df : DataFrame) : List String :=
  (df.columns.filter (fun p =>
    match p.2 with
    | Dtype.int64 => true
    | Dtype.float64 => true
    | _ => false)).map Prod.fst

/-- `df.select_dtypes(include=['object']).columns`. -/
def objectCols (df : DataFrame) : List String :=
  (df.columns.filter (fun p =>
    match p.2 with
    | Dtype.object => true
    | _ => false)).map Prod.fst

/-- Which rendering rule a chart block ends up drawing: each chart has a
primary rule, a fallback rule, and (when even the fallback's column guard
fails) an empty figure, which is still saved. -/
inductive ChartRule where
  | categoryBar
  | histFirstNumeric
  | dailyRevenueLine
  | lineFirstNumeric
  | scatterQuantityPrice
  | scatterFirstTwoNumeric
  | topProductsBar
  | topCategoryCounts
  | emptyChart
deriving DecidableEq, Repr

/-- The fallback rules of spec section 4.2. -/
def ChartRule.isFallback : ChartRule → Bool
  | .histFirstNumeric => true
  | .lineFirstNumeric => true
  | .scatterFirstTwoNumeric => true
  | .topCategoryCounts => true
  | _ => false

/-- Chart 1 (`visualization.py:37-61`): category bar if `categories` and
`total` exist, else histogram of the first numeric column if any, else an
empty figure (the `savefig` is unconditional). -/
def chart1Rule (df : DataFrame) : ChartRule :=
  if hasCol df "categories" && hasCol df "total" then ChartRule.categoryBar
  else if (numericCols df).length > 0 then ChartRule.histFirstNumeric
  else ChartRule.emptyChart

/-- Chart 2 (`visualization.py:67-96`): daily revenue line if `order_date`
and `total` exist, else line of the first numeric column's head(100). -/
def chart2Rule (df : DataFrame) : ChartRule :=
  if hasCol df "order_date" && hasCol df "total" then ChartRule.dailyRevenueLine
  else if (numericCols df).length > 0 then ChartRule.lineFirstNumeric
  else ChartRule.emptyChart

/-- Chart 3 (`visualization.py:102-131`): quantity/price scatter if both
columns exist, else scatter of the first two numeric columns when there are
at least two. -/
def chart3Rule (df : DataFrame) : ChartRule :=
  if hasCol df "quantity" && hasCol df "price" then ChartRule.scatterQuantityPrice
  else if (numericCols df).length ≥ 2 then ChartRule.scatterFirstTwoNumeric
  else ChartRule.emptyChart

/-- Chart 4 (`visualization.py:137-161`): top products bar if
`product_names` and `total` exist, else top-10 value counts of the first
categorical column if any. -/
def chart4Rule (df : DataFrame) : ChartRule :=
  if hasCol df "product_names" && hasCol df "total" then ChartRule.topProductsBar
  else if (objectCols df).length > 0 then ChartRule.topCategoryCounts
  else ChartRule.emptyChart

/-- `os.path.join(output_dir, name)` for a directory without a trailing
separator and a relative name, the only use in `create_visualizations`. -/
def pathJoin (dir name : String) : String := dir ++ "/" ++ name

/-- A chart the function produced: its saved path and the rule it drew. -/
structure ChartOut where
  path : String
  rule : ChartRule
deriving DecidableEq, Repr

/-- The external world of one `create_visualizations` call: the combined
`os.makedirs` + `pd.read_csv` outcome, and, per chart block, an optionally
injected exception (raised inside the block's `try:`, before its `savefig`;
`none` means the block's plotting and saving succeed). -/
structure VizEnv where
  load : Except PyErr DataFrame
  chartFail : Fin 4 → Option PyErr

/-- One chart block (`try: ... savefig ... charts.append ... except: pass`):
nothing when its body raises, the saved path and drawn rule otherwise. -/
def chartSlot (fail : Fin 4 → Option PyErr) (i : Fin 4) (path : String)
    (rule : ChartRule) : List ChartOut :=
  match fail i with
  | some _ => []
  | Option.none => [⟨path, rule⟩]

/-- The four sequential chart blocks of `create_visualizations`
(`visualization.py:35-163`), each appending to `charts` exactly when its own
`try:` succeeds. -/
def vizCharts (df : DataFrame) (dir : String) (fail : Fin 4 → Option PyErr) :
    List ChartOut :=
  chartSlot fail 0 (pathJoin dir "chart_1.png") (chart1Rule df) ++
  chartSlot fail 1 (pathJoin dir "chart_2.png") (chart2Rule df) ++
  chartSlot fail 2 (pathJoin dir "chart_3.png") (chart3Rule df) ++
  chartSlot fail 3 (pathJoin dir "chart_4.png") (chart4Rule df)

/-- `create_visualizations` (`visualization.py:12-175`): outer `try:` around
directory creation, CSV loading and the four chart blocks; on success returns
`("charts": paths, "count": len(charts), "chart_paths": paths)`, and the
outer `except` returns `("error": str(e), "charts": [])`. -/
def create_visualizations (env : VizEnv) (output_dir : String) :
    Except PyErr PyDict :=
  match env.load with
  | Except.error e =>
    Except.ok [("error", PyVal.str e.msg), ("charts", PyVal.list [])]
  | Except.ok df =>
    let outs := vizCharts df output_dir env.chartFail
    let paths := PyVal.list (outs.map (fun o => PyVal.str o.path))
    Except.ok [("charts", paths),
               ("count", PyVal.int (outs.length : Int)),
               ("chart_paths", paths)]

/-! ## The coordinator (`coordinator.py`) -/

/-- The external world of one `synthesize_insights` call: the generator
request (client construction, `messages.create` and
`response.content[0].text` folded into one effect; the prompt building that
precedes it — `json.dumps` of the two result dicts and
`viz_results.get('count', 0)` — is pure string interpolation and cannot
raise). -/
structure CoordEnv where
  request : Except PyErr String

/-- `synthesize_insights` (`coordinator.py:9-80`): return the generator's
text verbatim; the `except` returns `"Error generating insights: " + str(e)`
instead of raising. -/
def synthesize_insights (_stats _viz _anomaly : PyDict) (env : CoordEnv) :
    Except PyErr String :=
  match env.request with
  | Except.ok insights => Except.ok insights
  | Except.error e => Except.ok ("Error generating insights: " ++ e.msg)

/-! ## The report renderer's parsing helpers (`main.py`) -/

/-- One step of `parse_insights`'s loop over `insights.split('\n')`
(`main.py:840-845`): a `## ` heading opens (or resets) a section; other lines
are appended to the current section when one is open (Python truthiness: the
current section name must be non-empty, and so must the stripped line). -/
def insightsStep (acc : List (String × List String) × Option String)
    (line : String) : List (String × List String) × Option String :=
  if pyStartsWith line "## " then
    let name := pyStrip (pyReplace line "## " "")
    (setKey acc.1 name [], some name)
  else
    match acc.2 with
    | some current =>
      if current ≠ "" ∧ pyStrip line ≠ "" then
        (acc.1.map (fun p => if p.1 = current then (p.1, p.2 ++ [pyStrip line]) else p),
         acc.2)
      else acc
    | Option.none => acc

/-- `parse_insights` (`main.py:835-847`): fold the loop over the lines,
starting from an empty dict and no current section. -/
def parse_insights (insights : String) : List (String × List String) :=
  ((pySplitChar insights '\n').foldl insightsStep ([], Option.none)).1

/-- The per-line HTML of `build_insights_html`'s inner loop
(`main.py:869-879`): `### ` subheadings, `**Label:** text` finding cards,
plain paragraphs. -/
def renderInsightLine (line : String) : String :=
  if pyStartsWith line "### " then
    "<h4>" ++ pyStrip (pyReplace line "### " "") ++ "</h4>"
  else if pyStartsWith line "**" && line.data.contains ':' then
    let parts := pySplitFirst line ':'
    let title := pyStrip (pyReplace (pyReplace parts.1 "**" "") "###" "")
    let desc :=
      match parts.2 with
      | some d => pyStrip d
      | Option.none => ""
    "<div class=\"finding-card\"><h4>" ++ title ++ "</h4><p>" ++ desc ++ "</p></div>"
  else if line ≠ "" then "<p>" ++ line ++ "</p>"
  else ""

/-- One section of `build_insights_html` (`main.py:854-883`): skipped when
its content is empty, otherwise a collapsible button and content div around
the rendered lines. -/
def sectionHtml (name : String) (content : List String) : String :=
  if content = [] then ""
  else
    let sid := pyReplace (pyReplace (pyLower name) " " "-") "**" ""
    "\n        <button class=\"collapsible\" data-section=\"" ++ sid ++
      "\" onclick=\"toggleSection(this);\">\n            " ++ name ++
      "\n            <span class=\"collapse-icon\">▶</span>\n        </button>\n        <div class=\"content\" id=\"content-" ++
      sid ++ "\">\n" ++
      String.join (content.map renderInsightLine) ++
      "\n        </div>\n"

/-- `build_insights_html` (`main.py:850-885`): concatenate the sections in
dict order. -/
def build_insights_html (sections : List (String × List String)) : String :=
  String.join (sections.map (fun p => sectionHtml p.1 p.2))

/-- The quality score computed by `format_anomalies` (`main.py:944-950`): 85
when `total_issues` is absent, else `max(50, 100 - (issues * 5))`.  A
non-integer `total_issues` would raise `TypeError` in the subtraction,
modelled as `none`. -/
def qualityScore (anomalies : PyDict) : Option Int :=
  match dictGet? anomalies "total_issues" with
  | Option.none => some 85
  | some (PyVal.int issues) => some (max 50 (100 - issues * 5))
  | some _ => Option.none

/-- `format_anomalies` (`main.py:944-971`): the rendered HTML (quality-score
card, plus an issues card when `total_issues > 0`) together with the score it
displays. -/
def format_anomalies (anomalies : PyDict) : Option (String × Int) :=
  match qualityScore anomalies with
  | Option.none => Option.none
  | some quality_score =>
    let html :=
      "\n    <div class=\"quality-score\">\n        <div class=\"score-circle\">" ++
      toString quality_score ++
      "%</div>\n        <div>\n            <div class=\"score-quality\">Data Quality Score</div>\n            <p>Based on detected anomalies and data validation checks</p>\n        </div>\n    </div>\n    "
    let html :=
      match dictGet? anomalies "total_issues" with
      | some (PyVal.int issues) =>
        if 0 < issues then
          html ++
          "\n        <div class=\"finding-card\">\n            <span class=\"importance high\">⚠ Attention Required</span>\n            <h4>Issues Found</h4>\n            <p>Total anomalies detected: <strong>" ++
          toString issues ++
          "</strong></p>\n        </div>\n        "
        else html
      | _ => html
    some (html, quality_score)

/-! ## The remote visualization agent's retry protocol (spec-modelled)

Only the local visualization agent is present under `src/`; the remote
variant with the validation-and-retry policy (spec section 4.1 step 5) is
absent.  Its validation check survives in the repository's test script
`src/test_viz_fix.py:67-73` and is translated below; the
generate → validate → retry-once protocol itself is modelled from the spec. -/

/-- The plotting keywords of `src/test_viz_fix.py:72`. -/
def plottingKeywords : List String :=
  ["plt.plot", "plt.bar", "plt.scatter", "sns.heatmap", "plt.hist"]

/-- `src/test_viz_fix.py:72`: the generated code contains a plotting
command. -/
def hasPlotting (code : String) : Bool :=
  plottingKeywords.any (fun kw => containsSub code.data kw.data)

/-- `src/test_viz_fix.py:67`: the number of `plt.show()` markers in the
generated code. -/
def showCount (code : String) : Nat :=
  countOccur code.data ("plt.show()").data

/-- The plotting validation of `src/test_viz_fix.py:155`: plotting commands
present and at least four show markers. -/
def validateVizCode (code : String) : Bool :=
  hasPlotting code && showCount code ≥ 4

/-- Modelled from the spec: the remote-variant visualization agent's
two-attempt generation (spec section 4.1 step 5 and section 9), absent from
`src/`.  `gen n` is the generator's `n`-th program text; the result is the
accepted code and the number of retries issued: accept the first attempt if
it validates, otherwise issue exactly one retry with the stricter prompt and
proceed with whatever the second attempt produced. -/
def vizGenerateWithRetry (gen : Nat → String) : String × Nat :=
  let first := gen 0
  if validateVizCode first then (first, 0)
  else (gen 1, 1)

/-! ## Concrete environments and datasets used by the evaluation theorems -/

/-- A fully successful anomaly/statistical run: session created, dataset
uploaded, one tool invocation, execution without error, stdout carrying one
parseable JSON object, interpretation obtained, `kill` succeeding. -/
def envSuccess : AgentEnv :=
  { create := Except.ok ()
    upload := Except.ok "/home/user/data.csv"
    firstRequest := Except.ok ⟨StopReason.tool_use, "import pandas as pd"⟩
    runCode := Except.ok ⟨Option.none, ["\x7b\"total_issues\": 2\x7d"], []⟩
    interpRequest := Except.ok (some "Looks fine.")
    kill := Except.ok () }

/-- A run in which the session is created but the dataset upload raises. -/
def envUploadFail : AgentEnv :=
  { create := Except.ok ()
    upload := Except.error ⟨"FileNotFoundError: missing.csv"⟩
    firstRequest := Except.ok ⟨StopReason.tool_use, "import pandas as pd"⟩
    runCode := Except.ok ⟨Option.none, [], []⟩
    interpRequest := Except.ok Option.none
    kill := Except.ok () }

/-- A run in which the generated code executes with an error. -/
def envExecErr : AgentEnv :=
  { create := Except.ok ()
    upload := Except.ok "/home/user/data.csv"
    firstRequest := Except.ok ⟨StopReason.tool_use, "1/0"⟩
    runCode := Except.ok ⟨some ⟨"ZeroDivisionError: division by zero",
                                some "Traceback (most recent call last)"⟩, [], []⟩
    interpRequest := Except.ok Option.none
    kill := Except.ok () }

/-- A dataset with numeric `quantity` and `price` columns but neither
`categories` nor `total`. -/
def dfQP : DataFrame := ⟨[("quantity", Dtype.float64), ("price", Dtype.float64)]⟩

/-- A dataset with one numeric and one categorical column and none of the
named special columns. -/
def dfW : DataFrame := ⟨[("revenue", Dtype.float64), ("region", Dtype.object)]⟩

/-- The fixed file name of the `i`-th chart block. -/
def chartName : Fin 4 → String
  | 0 => "chart_1.png"
  | 1 => "chart_2.png"
  | 2 => "chart_3.png"
  | 3 => "chart_4.png"

/-- A failure oracle in which only the second chart block raises. -/
def failSnd : Fin 4 → Option PyErr :=
  fun i => if i = 1 then some ⟨"ValueError: no numeric data to plot"⟩ else Option.none

/-- A run in which the generator answers with plain text (no tool
invocation): the empty-result path. -/
def envEmptyResult : AgentEnv :=
  { create := Except.ok ()
    upload := Except.ok "/home/user/data.csv"
    firstRequest := Except.ok ⟨StopReason.end_turn, ""⟩
    runCode := Except.ok ⟨Option.none, [], []⟩
    interpRequest := Except.ok Option.none
    kill := Except.ok () }

/-- A run in which the first generator request raises after a successful
upload. -/
def envGenFail : AgentEnv :=
  { create := Except.ok ()
    upload := Except.ok "/home/user/data.csv"
    firstRequest := Except.error ⟨"APIConnectionError: connection refused"⟩
    runCode := Except.ok ⟨Option.none, [], []⟩
    interpRequest := Except.ok Option.none
    kill := Except.ok () }

/-- A run in which the `run_code` call itself raises. -/
def envRunFail : AgentEnv :=
  { create := Except.ok ()
    upload := Except.ok "/home/user/data.csv"
    firstRequest := Except.ok ⟨StopReason.tool_use, "import pandas as pd"⟩
    runCode := Except.error ⟨"TimeoutException: execution timed out"⟩
    interpRequest := Except.ok Option.none
    kill := Except.ok () }

/-- A run in which execution succeeds but the follow-up interpretation
request raises. -/
def envInterpFail : AgentEnv :=
  { create := Except.ok ()
    upload := Except.ok "/home/user/data.csv"
    firstRequest := Except.ok ⟨StopReason.tool_use, "import pandas as pd"⟩
    runCode := Except.ok ⟨Option.none, ["\x7b\"total_issues\": 2\x7d"], []⟩
    interpRequest := Except.error ⟨"APIStatusError: overloaded"⟩
    kill := Except.ok () }

/-- The call returned normally (`Except.ok`) rather than raising. -/
def exceptOk {α : Type} : Except PyErr α → Bool
  | Except.ok _ => true
  | Except.error _ => false

/-! ## Properties of `pyRfind` -/

/-- An element sitting at index `j` is in every `drop k` with `k ≤ j`. -/
theorem mem_drop_of_getD {c : Char} :
    ∀ (cs : List Char) (k j : Nat), j < cs.length → cs.getD j ' ' = c → k ≤ j →
      c ∈ cs.drop k := by
  intro cs
  induction cs with
  | nil => intro k j h; simp at h
  | cons a t ih =>
    intro k j hlen hget hkj
    match k, j with
    | 0, 0 =>
      simp only [List.getD_cons_zero] at hget
      simp [hget]
    | 0, j + 1 =>
      have h := ih 0 j (by simpa using Nat.lt_of_succ_lt_succ (by simpa using hlen))
        (by simpa using hget) (Nat.zero_le _)
      simp only [List.drop_zero] at h ⊢
      exact List.mem_cons_of_mem a h
    | k + 1, j + 1 =>
      have h := ih k j (Nat.lt_of_succ_lt_succ (by simpa using hlen))
        (by simpa using hget) (Nat.le_of_succ_le_succ hkj)
      simpa using h

/-- A character with a last occurrence is present. -/
theorem isLastOcc_mem {cs : List Char} {c : Char} {i : Nat}
    (h : isLastOcc cs c i) : c ∈ cs := by
  have := mem_drop_of_getD cs 0 i h.1 h.2.1 (Nat.zero_le _)
  simpa using this

/-- Last occurrences are unique. -/
theorem isLastOcc_unique {cs : List Char} {c : Char} {i j : Nat}
    (hi : isLastOcc cs c i) (hj : isLastOcc cs c j) : i = j := by
  by_contra hne
  rcases Nat.lt_or_ge i j with h | h
  · exact hi.2.2 (mem_drop_of_getD cs (i + 1) j hj.1 hj.2.1 h)
  · have h' : j < i := Nat.lt_of_le_of_ne h (fun e => hne e.symm)
    exact hj.2.2 (mem_drop_of_getD cs (j + 1) i hi.1 hi.2.1 h')

/-- `pyRfind` is Python's `rfind`: `-1` exactly when the character is
absent, and otherwise the index of its last occurrence. -/
theorem pyRfind_spec (c : Char) :
    ∀ cs : List Char,
      (pyRfind cs c = -1 ∧ c ∉ cs) ∨
        ∃ i : Nat, pyRfind cs c = (i : Int) ∧ isLastOcc cs c i := by
  intro cs
  induction cs with
  | nil => exact Or.inl ⟨rfl, by simp⟩
  | cons a t ih =>
    rcases ih with ⟨h1, h2⟩ | ⟨i, h1, hl, hg, hn⟩
    · by_cases hac : a = c
      · refine Or.inr ⟨0, ?_, ?_, ?_, ?_⟩
        · simp [pyRfind, h1, hac]
        · simp
        · simpa using hac
        · simpa using h2
      · refine Or.inl ⟨?_, ?_⟩
        · simp [pyRfind, h1, hac]
        · simp only [List.mem_cons, not_or]
          exact ⟨fun e => hac e.symm, h2⟩
    · refine Or.inr ⟨i + 1, ?_, ?_, ?_, ?_⟩
      · simp only [pyRfind, h1]
        rw [if_pos (Int.natCast_nonneg i)]
        push_cast
        ring
      · simpa using Nat.succ_lt_succ hl
      · simpa using hg
      · simpa using hn

/-! ## Claim theorems -/

/-- Claim C1 (code bug).  The claim says that when execution succeeds and
stdout carries a parseable last brace span, `run_anomaly_detection` returns
the parsed dict with an `interpretation` field.  On such a run the code
instead returns the `except` handler's error dict: the cleanup line
`sandbox.kill()()` calls the boolean returned by `kill` and raises
`TypeError`.  For contrast, the statistical agent — identical except for
`sandbox.kill()` — returns exactly the claimed dict at the same
environment. -/
theorem anomaly_success_path_returns_error_dict :
    extractJson "\x7b\"total_issues\": 2\x7d" = some "\x7b\"total_issues\": 2\x7d" ∧
    jsonLoadsObj "\x7b\"total_issues\": 2\x7d" = some [("total_issues", PyVal.int 2)] ∧
    (run_anomaly_detection envSuccess).1 =
      Except.ok [("error", PyVal.str "\x27bool\x27 object is not callable"),
                 ("outliers", PyVal.list []),
                 ("data_quality", PyVal.dict [])] ∧
    (run_statistical_analysis envSuccess).1 =
      Except.ok [("total_issues", PyVal.int 2),
                 ("interpretation", PyVal.str "Looks fine.")] :=
  ⟨rfl, rfl, rfl, rfl⟩

/-- Claim C2 (counterexample).  A run in which the session is created and the
dataset upload then raises: both agents return their error dict without
invoking `kill` — the session leaks, refuting the claimed guaranteed
cleanup on exception paths. -/
theorem upload_failure_skips_kill :
    envUploadFail.create = Except.ok () ∧
    (run_statistical_analysis envUploadFail).2 = false ∧
    (run_anomaly_detection envUploadFail).2 = false ∧
    (run_statistical_analysis envUploadFail).1 =
      Except.ok [("error", PyVal.str "FileNotFoundError: missing.csv")] :=
  ⟨rfl, rfl, rfl, rfl⟩

/-- Claim C2 (amended).  `kill` is invoked exactly on the paths on which the
`try:` body reaches the cleanup line — the empty-result path, the
execution-error path, and the fully-successful path — while on every path
that raises after session creation (dataset-upload failure, generator-request
failure, a raising `run_code` call, a raising interpretation request) the
agent returns without invoking `kill`; there is no `finally`. -/
theorem kill_invoked_iff_cleanup_reached :
    (∀ (env : AgentEnv) (r : GenResponse), env.create = Except.ok () →
      (∃ p, env.upload = Except.ok p) →
      env.firstRequest = Except.ok r →
      r.stopReason ≠ StopReason.tool_use →
      env.kill = Except.ok () →
      (run_statistical_analysis env).2 = true ∧
        (run_anomaly_detection env).2 = true) ∧
    (∀ (env : AgentEnv) (r : GenResponse) (ex : Execution) (err : ExecError),
      env.create = Except.ok () →
      (∃ p, env.upload = Except.ok p) →
      env.firstRequest = Except.ok r →
      r.stopReason = StopReason.tool_use →
      env.runCode = Except.ok ex →
      ex.error = some err →
      env.kill = Except.ok () →
      (run_statistical_analysis env).2 = true ∧
        (run_anomaly_detection env).2 = true) ∧
    (∀ (env : AgentEnv) (r : GenResponse) (ex : Execution) (t : Option String),
      env.create = Except.ok () →
      (∃ p, env.upload = Except.ok p) →
      env.firstRequest = Except.ok r →
      r.stopReason = StopReason.tool_use →
      env.runCode = Except.ok ex →
      ex.error = Option.none →
      env.interpRequest = Except.ok t →
      env.kill = Except.ok () →
      (run_statistical_analysis env).2 = true ∧
        (run_anomaly_detection env).2 = true) ∧
    (∀ (env : AgentEnv) (e : PyErr), env.create = Except.ok () →
      env.upload = Except.error e →
      (run_statistical_analysis env).2 = false ∧
        (run_anomaly_detection env).2 = false) ∧
    (∀ (env : AgentEnv) (e : PyErr), env.create = Except.ok () →
      (∃ p, env.upload = Except.ok p) →
      env.firstRequest = Except.error e →
      (run_statistical_analysis env).2 = false ∧
        (run_anomaly_detection env).2 = false) ∧
    (∀ (env : AgentEnv) (r : GenResponse) (e : PyErr), env.create = Except.ok () →
      (∃ p, env.upload = Except.ok p) →
      env.firstRequest = Except.ok r →
      r.stopReason = StopReason.tool_use →
      env.runCode = Except.error e →
      (run_statistical_analysis env).2 = false ∧
        (run_anomaly_detection env).2 = false) ∧
    (∀ (env : AgentEnv) (r : GenResponse) (ex : Execution) (e : PyErr),
      env.create = Except.ok () →
      (∃ p, env.upload = Except.ok p) →
      env.firstRequest = Except.ok r →
      r.stopReason = StopReason.tool_use →
      env.runCode = Except.ok ex →
      ex.error = Option.none →
      env.interpRequest = Except.error e →
      (run_statistical_analysis env).2 = false ∧
        (run_anomaly_detection env).2 = false) := by
  refine ⟨?_, ?_, ?_, ?_, ?_, ?_, ?_⟩
  · intro env r hc hu hf hsr hk
    obtain ⟨p, hu⟩ := hu
    constructor
    · simp [run_statistical_analysis, statTry, hc, hu, hf, hsr, hk]
    · simp [run_anomaly_detection, anomalyTry, hc, hu, hf, hsr, hk]
  · intro env r ex err hc hu hf hsr hr hex hk
    obtain ⟨p, hu⟩ := hu
    constructor
    · simp [run_statistical_analysis, statTry, hc, hu, hf, hsr, hr, hex, hk]
    · simp [run_anomaly_detection, anomalyTry, hc, hu, hf, hsr, hr, hex, hk]
  · intro env r ex t hc hu hf hsr hr hex hi hk
    obtain ⟨p, hu⟩ := hu
    constructor
    · cases t <;>
        simp [run_statistical_analysis, statTry, hc, hu, hf, hsr, hr, hex, hi, hk]
    · cases t <;>
        simp [run_anomaly_detection, anomalyTry, hc, hu, hf, hsr, hr, hex, hi, hk]
  · intro env e hc hu
    constructor
    · simp [run_statistical_analysis, statTry, hc, hu]
    · simp [run_anomaly_detection, anomalyTry, hc, hu]
  · intro env e hc hu hf
    obtain ⟨p, hu⟩ := hu
    constructor
    · simp [run_statistical_analysis, statTry, hc, hu, hf]
    · simp [run_anomaly_detection, anomalyTry, hc, hu, hf]
  · intro env r e hc hu hf hsr hr
    obtain ⟨p, hu⟩ := hu
    constructor
    · simp [run_statistical_analysis, statTry, hc, hu, hf, hsr, hr]
    · simp [run_anomaly_detection, anomalyTry, hc, hu, hf, hsr, hr]
  · intro env r ex e hc hu hf hsr hr hex hi
    obtain ⟨p, hu⟩ := hu
    constructor
    · simp [run_statistical_analysis, statTry, hc, hu, hf, hsr, hr, hex, hi]
    · simp [run_anomaly_detection, anomalyTry, hc, hu, hf, hsr, hr, hex, hi]

/-- Claim C2 (witness): the amended theorem applied, part by part, at
concrete runs of all seven path shapes - the three cleanup-reaching paths and
the four leaking exception paths. -/
theorem kill_invoked_iff_cleanup_reached_witness :
    ((run_statistical_analysis envEmptyResult).2 = true ∧
      (run_anomaly_detection envEmptyResult).2 = true) ∧
    ((run_statistical_analysis envExecErr).2 = true ∧
      (run_anomaly_detection envExecErr).2 = true) ∧
    ((run_statistical_analysis envSuccess).2 = true ∧
      (run_anomaly_detection envSuccess).2 = true) ∧
    ((run_statistical_analysis envUploadFail).2 = false ∧
      (run_anomaly_detection envUploadFail).2 = false) ∧
    ((run_statistical_analysis envGenFail).2 = false ∧
      (run_anomaly_detection envGenFail).2 = false) ∧
    ((run_statistical_analysis envRunFail).2 = false ∧
      (run_anomaly_detection envRunFail).2 = false) ∧
    ((run_statistical_analysis envInterpFail).2 = false ∧
      (run_anomaly_detection envInterpFail).2 = false) :=
  ⟨kill_invoked_iff_cleanup_reached.1 envEmptyResult ⟨StopReason.end_turn, ""⟩
      rfl ⟨_, rfl⟩ rfl (by decide) rfl,
   kill_invoked_iff_cleanup_reached.2.1 envExecErr ⟨StopReason.tool_use, "1/0"⟩
      ⟨some ⟨"ZeroDivisionError: division by zero",
             some "Traceback (most recent call last)"⟩, [], []⟩
      ⟨"ZeroDivisionError: division by zero",
       some "Traceback (most recent call last)"⟩
      rfl ⟨_, rfl⟩ rfl rfl rfl rfl rfl,
   kill_invoked_iff_cleanup_reached.2.2.1 envSuccess
      ⟨StopReason.tool_use, "import pandas as pd"⟩
      ⟨Option.none, ["\x7b\"total_issues\": 2\x7d"], []⟩
      (some "Looks fine.") rfl ⟨_, rfl⟩ rfl rfl rfl rfl rfl rfl,
   kill_invoked_iff_cleanup_reached.2.2.2.1 envUploadFail
      ⟨"FileNotFoundError: missing.csv"⟩ rfl rfl,
   kill_invoked_iff_cleanup_reached.2.2.2.2.1 envGenFail
      ⟨"APIConnectionError: connection refused"⟩ rfl ⟨_, rfl⟩ rfl,
   kill_invoked_iff_cleanup_reached.2.2.2.2.2.1 envRunFail
      ⟨StopReason.tool_use, "import pandas as pd"⟩
      ⟨"TimeoutException: execution timed out"⟩ rfl ⟨_, rfl⟩ rfl rfl rfl,
   kill_invoked_iff_cleanup_reached.2.2.2.2.2.2 envInterpFail
      ⟨StopReason.tool_use, "import pandas as pd"⟩
      ⟨Option.none, ["\x7b\"total_issues\": 2\x7d"], []⟩
      ⟨"APIStatusError: overloaded"⟩ rfl ⟨_, rfl⟩ rfl rfl rfl rfl rfl⟩

/-- Claim C3 (counterexample).  At a concrete execution-error run, the
statistical agent's result binds exactly `error` and `traceback` — none of
its statistics fields is present, empty or otherwise — and the anomaly
agent's returned `error` is the cleanup `TypeError` message, not the
execution error message. -/
theorem exec_error_shapes_counterexample :
    (run_statistical_analysis envExecErr).1 =
      Except.ok [("error", PyVal.str "ZeroDivisionError: division by zero"),
                 ("traceback", PyVal.str "Traceback (most recent call last)")] ∧
    (run_anomaly_detection envExecErr).1 =
      Except.ok [("error", PyVal.str "\x27bool\x27 object is not callable"),
                 ("outliers", PyVal.list []),
                 ("data_quality", PyVal.dict [])] :=
  ⟨rfl, rfl⟩

/-- Claim C3 (amended).  When remote execution reports an error, the anomaly
agent's returned dict binds `outliers` and `data_quality` to empty
collections but maps `error` to the cleanup `TypeError` message (the
execution-error dict built inside the body is discarded when
`sandbox.kill()()` raises); the statistical agent returns exactly
`("error": message, "traceback": ...)`, with no statistics fields. -/
theorem exec_error_result_shapes :
    ∀ (env : AgentEnv) (r : GenResponse) (ex : Execution) (err : ExecError),
      env.create = Except.ok () →
      (∃ p, env.upload = Except.ok p) →
      env.firstRequest = Except.ok r →
      r.stopReason = StopReason.tool_use →
      env.runCode = Except.ok ex →
      ex.error = some err →
      env.kill = Except.ok () →
      (run_statistical_analysis env).1 =
        Except.ok [("error", PyVal.str err.msg),
                   ("traceback", tracebackVal err.traceback)] ∧
      (run_anomaly_detection env).1 =
        Except.ok [("error", PyVal.str killTypeError.msg),
                   ("outliers", PyVal.list []),
                   ("data_quality", PyVal.dict [])] := by
  intro env r ex err hc hu hf hsr hr hex hk
  obtain ⟨p, hu⟩ := hu
  constructor
  · simp [run_statistical_analysis, statTry, hc, hu, hf, hsr, hr, hex, hk]
  · simp [run_anomaly_detection, anomalyTry, hc, hu, hf, hsr, hr, hex, hk]

/-- Claim C3 (witness): the amended theorem applied at the concrete
execution-error run. -/
theorem exec_error_result_shapes_witness :
    (run_statistical_analysis envExecErr).1 =
      Except.ok [("error", PyVal.str "ZeroDivisionError: division by zero"),
                 ("traceback",
                  tracebackVal (some "Traceback (most recent call last)"))] ∧
    (run_anomaly_detection envExecErr).1 =
      Except.ok [("error", PyVal.str killTypeError.msg),
                 ("outliers", PyVal.list []),
                 ("data_quality", PyVal.dict [])] :=
  exec_error_result_shapes envExecErr ⟨StopReason.tool_use, "1/0"⟩
    ⟨some ⟨"ZeroDivisionError: division by zero",
           some "Traceback (most recent call last)"⟩, [], []⟩
    ⟨"ZeroDivisionError: division by zero",
     some "Traceback (most recent call last)"⟩
    rfl ⟨_, rfl⟩ rfl rfl rfl rfl rfl

/-- Claim C4 (confirmed).  The JSON-extraction step selects exactly the span
from the index of the last opening brace through the index of the last
closing brace inclusive, attempts a parse only when both braces exist and the
last opening brace precedes the last closing brace, and on the literal stdout
of the claim selects and successfully parses the second object. -/
theorem extractJson_rightmost_brace_spec :
    (∀ (s : String) (i j : Nat),
       isLastOcc s.data lbrace i → isLastOcc s.data rbrace j → i < j →
       extractJson s = some (String.mk ((s.data.drop i).take (j + 1 - i)))) ∧
    (∀ (s : String) (i j : Nat),
       isLastOcc s.data lbrace i → isLastOcc s.data rbrace j → ¬ i < j →
       extractJson s = Option.none) ∧
    (∀ s : String, lbrace ∉ s.data → extractJson s = Option.none) ∧
    (∀ s : String, rbrace ∉ s.data → extractJson s = Option.none) ∧
    extractJson "noise \x7b\"a\":1\x7d more \x7b\"b\":2\x7d end" =
      some "\x7b\"b\":2\x7d" ∧
    jsonLoadsObj "\x7b\"b\":2\x7d" = some [("b", PyVal.int 2)] := by
  have hfind : ∀ (cs : List Char) (c : Char) (i : Nat),
      isLastOcc cs c i → pyRfind cs c = (i : Int) := by
    intro cs c i hi
    rcases pyRfind_spec c cs with ⟨_, hmem⟩ | ⟨i', h1, h2⟩
    · exact absurd (isLastOcc_mem hi) hmem
    · rw [h1]
      exact congrArg Int.ofNat (isLastOcc_unique h2 hi)
  refine ⟨?_, ?_, ?_, ?_, rfl, rfl⟩
  · intro s i j hi hj hij
    have hbi := hfind s.data lbrace i hi
    have hbj := hfind s.data rbrace j hj
    have hcond : (0 : Int) ≤ (i : Int) ∧ (i : Int) < (j : Int) + 1 := by
      constructor
      · exact Int.natCast_nonneg i
      · exact_mod_cast Nat.lt_succ_of_lt hij
    have htoi : ((i : Int)).toNat = i := Int.toNat_natCast i
    have htod : (((j : Int) + 1) - (i : Int)).toNat = j + 1 - i := by omega
    simp only [extractJson, hbi, hbj, if_pos hcond, htoi, htod]
  · intro s i j hi hj hij
    have hbi := hfind s.data lbrace i hi
    have hbj := hfind s.data rbrace j hj
    have hne : i ≠ j := by
      intro e
      subst e
      have h1 := hi.2.1
      have h2 := hj.2.1
      rw [h1] at h2
      exact absurd h2 (by decide)
    have hcond : ¬ ((0 : Int) ≤ (i : Int) ∧ (i : Int) < (j : Int) + 1) := by
      intro ⟨_, h2⟩
      have : i < j + 1 := by exact_mod_cast h2
      omega
    simp only [extractJson, hbi, hbj, if_neg hcond]
  · intro s hmem
    have h1 : pyRfind s.data lbrace = -1 := by
      rcases pyRfind_spec lbrace s.data with ⟨h, _⟩ | ⟨i, _, hocc⟩
      · exact h
      · exact absurd (isLastOcc_mem hocc) hmem
    have hcond : ¬ ((0 : Int) ≤ pyRfind s.data lbrace ∧
        pyRfind s.data lbrace < pyRfind s.data rbrace + 1) := by
      rw [h1]
      intro ⟨h, _⟩
      omega
    simp only [extractJson, if_neg hcond]
  · intro s hmem
    have h1 : pyRfind s.data rbrace = -1 := by
      rcases pyRfind_spec rbrace s.data with ⟨h, _⟩ | ⟨i, _, hocc⟩
      · exact h
      · exact absurd (isLastOcc_mem hocc) hmem
    have hcond : ¬ ((0 : Int) ≤ pyRfind s.data lbrace ∧
        pyRfind s.data lbrace < pyRfind s.data rbrace + 1) := by
      rw [h1]
      intro ⟨h, h2⟩
      omega
    simp only [extractJson, if_neg hcond]

/-- Claim C4 (witness): the span-selection part applied at the claim's
literal stdout, with the last braces at indices 19 and 25. -/
theorem extractJson_rightmost_brace_witness :
    extractJson "noise \x7b\"a\":1\x7d more \x7b\"b\":2\x7d end" =
      some (String.mk
        ((("noise \x7b\"a\":1\x7d more \x7b\"b\":2\x7d end").data.drop 19).take
          (25 + 1 - 19))) :=
  extractJson_rightmost_brace_spec.1 "noise \x7b\"a\":1\x7d more \x7b\"b\":2\x7d end"
    19 25 (by decide) (by decide) (by decide)

/-- Claim C5 (confirmed).  Under every environment — every combination of
external-call outcomes, including raising ones — each of the four functions
returns normally with a value of its declared shape: the agents and the
visualization function an `ok` dict, the coordinator an `ok` string, which on
a failed generator request is the plain-text error message. -/
theorem no_exception_crosses_boundary :
    (∀ env : AgentEnv, exceptOk (run_statistical_analysis env).1 = true) ∧
    (∀ env : AgentEnv, exceptOk (run_anomaly_detection env).1 = true) ∧
    (∀ (env : VizEnv) (dir : String),
       exceptOk (create_visualizations env dir) = true) ∧
    (∀ (s v a : PyDict) (env : CoordEnv),
       exceptOk (synthesize_insights s v a env) = true) ∧
    (∀ (s v a : PyDict) (e : PyErr),
       synthesize_insights s v a ⟨Except.error e⟩ =
         Except.ok ("Error generating insights: " ++ e.msg)) := by
  refine ⟨?_, ?_, ?_, ?_, ?_⟩
  · intro env
    rcases hst : statTry env with ⟨r, k⟩
    cases r with
    | ok d => simp [run_statistical_analysis, hst, exceptOk]
    | error e => simp [run_statistical_analysis, hst, exceptOk]
  · intro env
    rcases hst : anomalyTry env with ⟨r, k⟩
    cases r with
    | ok d => simp [run_anomaly_detection, hst, exceptOk]
    | error e => simp [run_anomaly_detection, hst, exceptOk]
  · intro env dir
    cases hl : env.load with
    | ok df => simp [create_visualizations, hl, exceptOk]
    | error e => simp [create_visualizations, hl, exceptOk]
  · intro s v a env
    cases hr : env.request with
    | ok t => simp [synthesize_insights, hr, exceptOk]
    | error e => simp [synthesize_insights, hr, exceptOk]
  · intro s v a e
    rfl

/-- Claim C6 (confirmed, spec-modelled).  Against a generator none of whose
attempts passes the plotting validation, the agent issues exactly one retry
and proceeds with the second attempt's code. -/
theorem viz_retry_once_cap (gen : Nat → String)
    (h : ∀ n, validateVizCode (gen n) = false) :
    vizGenerateWithRetry gen = (gen 1, 1) := by
  simp [vizGenerateWithRetry, h 0]

/-- Claim C6 (witness): the retry-cap theorem applied to a generator that
always produces non-plotting code. -/
theorem viz_retry_once_cap_witness :
    vizGenerateWithRetry (fun _ => "print(\x27no charts\x27)") =
      ("print(\x27no charts\x27)", 1) :=
  viz_retry_once_cap (fun _ => "print(\x27no charts\x27)")
    (fun _ => (by decide : validateVizCode "print(\x27no charts\x27)" = false))

/-- Claim C7 (counterexample).  A dataset with numeric `quantity` and `price`
columns and neither `categories` nor `total` satisfies the claim's
hypothesis, yet chart 3 draws its primary quantity-vs-price rule, not its
fallback — refuting "uses the fallback rendering rule for every chart". -/
theorem viz_fallback_counterexample :
    hasCol dfQP "categories" = false ∧
    hasCol dfQP "total" = false ∧
    numericCols dfQP ≠ [] ∧
    chart3Rule dfQP = ChartRule.scatterQuantityPrice ∧
    (chart3Rule dfQP).isFallback = false := by
  refine ⟨rfl, rfl, by decide, rfl, rfl⟩

/-- Claim C7 (amended).  On a dataset with no `categories`/`total` column and
at least one numeric column, and with no chart block raising, the function
returns without raising exactly the four files `chart_1.png` … `chart_4.png`
under the output directory, in order, with `count = 4`; charts 1 and 2 use
their fallback rules, chart 4 its fallback when a categorical column exists
(an empty chart otherwise), while chart 3 uses its primary rule when
`quantity` and `price` both exist, its fallback when they do not and at least
two numeric columns exist, and an empty chart otherwise. -/
theorem viz_no_special_columns_four_charts :
    ∀ (df : DataFrame) (dir : String),
      hasCol df "categories" = false →
      hasCol df "total" = false →
      numericCols df ≠ [] →
      (vizCharts df dir (fun _ => Option.none)).map ChartOut.path =
        [pathJoin dir "chart_1.png", pathJoin dir "chart_2.png",
         pathJoin dir "chart_3.png", pathJoin dir "chart_4.png"] ∧
      (∃ d, create_visualizations ⟨Except.ok df, fun _ => Option.none⟩ dir =
          Except.ok d ∧ dictGet? d "count" = some (PyVal.int 4)) ∧
      chart1Rule df = ChartRule.histFirstNumeric ∧
      chart2Rule df = ChartRule.lineFirstNumeric ∧
      (hasCol df "quantity" = true → hasCol df "price" = true →
        chart3Rule df = ChartRule.scatterQuantityPrice) ∧
      ((hasCol df "quantity" && hasCol df "price") = false →
        2 ≤ (numericCols df).length →
        chart3Rule df = ChartRule.scatterFirstTwoNumeric) ∧
      ((hasCol df "quantity" && hasCol df "price") = false →
        (numericCols df).length < 2 →
        chart3Rule df = ChartRule.emptyChart) ∧
      (0 < (objectCols df).length →
        chart4Rule df = ChartRule.topCategoryCounts) ∧
      ((objectCols df).length = 0 →
        chart4Rule df = ChartRule.emptyChart) := by
  intro df dir hc ht hn
  have hlen : 0 < (numericCols df).length := List.length_pos.mpr hn
  refine ⟨?_, ?_, ?_, ?_, ?_, ?_, ?_, ?_, ?_⟩
  · simp [vizCharts, chartSlot]
  · refine ⟨_, rfl, ?_⟩
    have h4 : (vizCharts df dir (fun _ => Option.none)).length = 4 := by
      simp [vizCharts, chartSlot]
    simp [dictGet?, h4]
  · simp [chart1Rule, hc, hlen]
  · simp [chart2Rule, ht, hlen]
  · intro hq hp
    simp [chart3Rule, hq, hp]
  · intro hqp h2
    simp [chart3Rule, hqp, h2]
  · intro hqp h2
    simp [chart3Rule, hqp]
    omega
  · intro ho
    simp [chart4Rule, ht, ho]
  · intro ho
    simp [chart4Rule, ht, ho]

/-- Claim C7 (witness): the amended theorem applied at a dataset with one
numeric and one categorical column and none of the special columns — the
categorical `region` column makes chart 4 take its fallback rule. -/
theorem viz_no_special_columns_four_charts_witness :
    (vizCharts dfW "results" (fun _ => Option.none)).map ChartOut.path =
      [pathJoin "results" "chart_1.png", pathJoin "results" "chart_2.png",
       pathJoin "results" "chart_3.png", pathJoin "results" "chart_4.png"] ∧
    chart1Rule dfW = ChartRule.histFirstNumeric ∧
    chart2Rule dfW = ChartRule.lineFirstNumeric ∧
    chart4Rule dfW = ChartRule.topCategoryCounts :=
  ⟨(viz_no_special_columns_four_charts dfW "results" (by decide) (by decide)
      (by decide)).1,
   (viz_no_special_columns_four_charts dfW "results" (by decide) (by decide)
      (by decide)).2.2.1,
   (viz_no_special_columns_four_charts dfW "results" (by decide) (by decide)
      (by decide)).2.2.2.1,
   (viz_no_special_columns_four_charts dfW "results" (by decide) (by decide)
      (by decide)).2.2.2.2.2.2.2.1 (by decide)⟩

/-- Claim C8 (confirmed).  Whatever other chart blocks raise, a chart block
whose own body does not raise still saves its file (its path is in the
returned list), and the function still returns its charts/count dict built
from exactly the charts that succeeded. -/
theorem chart_failure_isolated :
    ∀ (df : DataFrame) (dir : String) (fail : Fin 4 → Option PyErr) (j : Fin 4),
      fail j = Option.none →
      pathJoin dir (chartName j) ∈ (vizCharts df dir fail).map ChartOut.path ∧
      ∃ d, create_visualizations ⟨Except.ok df, fail⟩ dir = Except.ok d ∧
        dictGet? d "charts" =
          some (PyVal.list
            ((vizCharts df dir fail).map (fun o => PyVal.str o.path))) := by
  intro df dir fail j hj
  constructor
  · fin_cases j <;>
      simp_all [vizCharts, chartSlot, chartName, List.mem_append]
  · exact ⟨_, rfl, by simp [dictGet?]⟩

/-- Claim C8 (witness): with only the second chart block raising, chart 3 is
still attempted and saved, and the result dict lists the surviving charts. -/
theorem chart_failure_isolated_witness :
    pathJoin "results" (chartName 2) ∈
      (vizCharts dfW "results" failSnd).map ChartOut.path ∧
    ∃ d, create_visualizations ⟨Except.ok dfW, failSnd⟩ "results" =
        Except.ok d ∧
      dictGet? d "charts" =
        some (PyVal.list
          ((vizCharts dfW "results" failSnd).map (fun o => PyVal.str o.path))) :=
  chart_failure_isolated dfW "results" failSnd 2 (by decide)

/-! ## Properties of line splitting and the insights fold -/

/-- String concatenation concatenates the character data. -/
theorem string_data_append (a b : String) : (a ++ b).data = a.data ++ b.data := by
  rcases a with ⟨as⟩
  rcases b with ⟨bs⟩
  rfl

/-- `splitOnChar` never returns the empty list. -/
theorem splitOnChar_ne_nil (cs : List Char) (c : Char) : splitOnChar cs c ≠ [] := by
  cases cs with
  | nil => simp [splitOnChar]
  | cons a t =>
    simp only [splitOnChar]
    by_cases h : a = c
    · simp [h]
    · rcases hr : splitOnChar t c with _ | ⟨x, xs⟩ <;> simp [h, hr]

/-- Splitting a concatenation around one separator splits each side:
the model of `(pre + "\n" + rest).split('\n')`. -/
theorem splitOnChar_append (c : Char) :
    ∀ xs ys : List Char,
      splitOnChar (xs ++ c :: ys) c = splitOnChar xs c ++ splitOnChar ys c := by
  intro xs ys
  induction xs with
  | nil => simp [splitOnChar]
  | cons a t ih =>
    simp only [List.cons_append, splitOnChar, List.append_eq]
    rw [ih]
    by_cases h : a = c
    · simp [h]
    · rcases hr : splitOnChar t c with _ | ⟨x, xs'⟩
      · exact absurd hr (splitOnChar_ne_nil t c)
      · simp [h, hr]

/-- The line list of `pre + "\n" + rest` is the lines of `pre` followed by
the lines of `rest`. -/
theorem pySplitChar_append (pre rest : String) :
    pySplitChar (pre ++ "\n" ++ rest) '\n' =
      pySplitChar pre '\n' ++ pySplitChar rest '\n' := by
  unfold pySplitChar
  have hdata : (pre ++ "\n" ++ rest).data = pre.data ++ '\n' :: rest.data := by
    rw [string_data_append, string_data_append]
    simp
  rw [hdata, splitOnChar_append]
  simp

/-- Lines that open no `## ` section leave `parse_insights`'s fold state
untouched from the initial state. -/
theorem insights_foldl_skip :
    ∀ lines : List String,
      (∀ l ∈ lines, pyStartsWith l "## " = false) →
      lines.foldl insightsStep ([], Option.none) = ([], Option.none) := by
  intro lines
  induction lines with
  | nil => intro _; rfl
  | cons a t ih =>
    intro h
    have ha := h a (by simp)
    have hstep : insightsStep ([], Option.none) a = ([], Option.none) := by
      simp [insightsStep, ha]
    rw [List.foldl_cons, hstep]
    exact ih (fun l hl => h l (by simp [hl]))

set_option maxRecDepth 8000 in
/-- Claim C9 (counterexample).  An insights string with no `## ` heading
parses to no sections and renders to the empty string — its prose appears
nowhere in the report — and paragraph text preceding the first `## ` heading
is likewise dropped from both the parse and the rendered HTML, refuting the
claimed degradation to plain paragraphs. -/
theorem insights_without_heading_dropped :
    parse_insights "These are the key findings of the analysis." = [] ∧
    build_insights_html
      (parse_insights "These are the key findings of the analysis.") = "" ∧
    parse_insights "intro paragraph\n## Summary\npoint one" =
      [("Summary", ["point one"])] ∧
    containsSub
      (build_insights_html
        (parse_insights "intro paragraph\n## Summary\npoint one")).data
      ("intro paragraph").data = false :=
  ⟨rfl, rfl, rfl, rfl⟩

/-- Claim C9 (amended).  The renderer never raises on malformed or missing
headings, but lines outside every `## ` section are dropped, not rendered:
when no line starts with `## `, the parse is empty and the insights HTML is
the empty string; and any paragraph block preceding the first `## ` heading
contributes nothing — parse and render of the whole text equal those of the
text from the first heading on. -/
theorem insights_no_heading_renders_empty :
    (∀ s : String,
      (∀ line ∈ pySplitChar s '\n', pyStartsWith line "## " = false) →
      parse_insights s = [] ∧ build_insights_html (parse_insights s) = "") ∧
    (∀ pre rest : String,
      (∀ line ∈ pySplitChar pre '\n', pyStartsWith line "## " = false) →
      parse_insights (pre ++ "\n" ++ rest) = parse_insights rest ∧
      build_insights_html (parse_insights (pre ++ "\n" ++ rest)) =
        build_insights_html (parse_insights rest)) := by
  constructor
  · intro s hs
    have hp : parse_insights s = [] := by
      unfold parse_insights
      rw [insights_foldl_skip (pySplitChar s '\n') hs]
    exact ⟨hp, by rw [hp]; rfl⟩
  · intro pre rest hpre
    have hp : parse_insights (pre ++ "\n" ++ rest) = parse_insights rest := by
      unfold parse_insights
      rw [pySplitChar_append, List.foldl_append,
        insights_foldl_skip (pySplitChar pre '\n') hpre]
    exact ⟨hp, by rw [hp]⟩

/-- Claim C9 (witness): the amended theorem applied at a two-line insights
string with no heading, and at a paragraph followed by a headed section. -/
theorem insights_no_heading_renders_empty_witness :
    (parse_insights "plain prose only\nmore prose" = [] ∧
      build_insights_html (parse_insights "plain prose only\nmore prose") = "") ∧
    (parse_insights ("intro paragraph" ++ "\n" ++ "## Summary\npoint one") =
        parse_insights "## Summary\npoint one" ∧
      build_insights_html
          (parse_insights ("intro paragraph" ++ "\n" ++ "## Summary\npoint one")) =
        build_insights_html (parse_insights "## Summary\npoint one")) :=
  ⟨insights_no_heading_renders_empty.1 "plain prose only\nmore prose" (by decide),
   insights_no_heading_renders_empty.2 "intro paragraph" "## Summary\npoint one"
     (by decide)⟩

/-- Claim C10 (counterexample).  At `total_issues = -1` the computed quality
score is `max(50, 100 - 5*(-1)) = 105`, displayed by `format_anomalies`, and
`105` lies outside the claimed interval `[50, 100]`. -/
theorem quality_score_negative_issues :
    qualityScore [("total_issues", PyVal.int (-1))] = some 105 ∧
    (format_anomalies [("total_issues", PyVal.int (-1))]).map Prod.snd =
      some 105 ∧
    ¬ (105 : Int) ≤ 100 :=
  ⟨rfl, rfl, by decide⟩

/-- Claim C10 (amended).  The score is 85 when `total_issues` is absent and
`max(50, 100 - 5*total_issues)` when it is an integer, so it is always at
least 50 and `format_anomalies` displays exactly it; it is at most 100
whenever `total_issues` is non-negative (and can exceed 100 otherwise). -/
theorem quality_score_bounds :
    (∀ (d : PyDict) (s : Int), qualityScore d = some s → 50 ≤ s) ∧
    (∀ d : PyDict, dictGet? d "total_issues" = Option.none →
      qualityScore d = some 85) ∧
    (∀ (d : PyDict) (i : Int),
      dictGet? d "total_issues" = some (PyVal.int i) →
      qualityScore d = some (max 50 (100 - i * 5)) ∧
        (0 ≤ i → max 50 (100 - i * 5) ≤ 100)) ∧
    (∀ (d : PyDict) (h : String) (s : Int),
      format_anomalies d = some (h, s) → qualityScore d = some s) := by
  refine ⟨?_, ?_, ?_, ?_⟩
  · intro d s hq
    unfold qualityScore at hq
    rcases hg : dictGet? d "total_issues" with _ | v
    · rw [hg] at hq
      simp at hq
      omega
    · rw [hg] at hq
      cases v <;> (simp at hq; try omega)
  · intro d hg
    unfold qualityScore
    rw [hg]
  · intro d i hg
    refine ⟨by unfold qualityScore; rw [hg], ?_⟩
    intro hi
    have h1 : (50 : Int) ≤ 100 := by norm_num
    have h2 : 100 - i * 5 ≤ 100 := by omega
    omega
  · intro d h s hf
    unfold format_anomalies at hf
    rcases hq : qualityScore d with _ | q
    · rw [hq] at hf
      simp at hf
    · rw [hq] at hf
      simp only [Option.some.injEq, Prod.mk.injEq] at hf
      rw [hf.2]

/-- Claim C10 (witness): the amended theorem applied at a dict with four
issues and at the empty dict. -/
theorem quality_score_bounds_witness :
    qualityScore [("total_issues", PyVal.int 4)] = some (max 50 (100 - 4 * 5)) ∧
    (50 : Int) ≤ max 50 (100 - 4 * 5) ∧
    (max 50 (100 - 4 * 5) : Int) ≤ 100 ∧
    qualityScore [] = some 85 :=
  ⟨(quality_score_bounds.2.2.1 [("total_issues", PyVal.int 4)] 4 rfl).1,
   quality_score_bounds.1 [("total_issues", PyVal.int 4)] (max 50 (100 - 4 * 5))
     (quality_score_bounds.2.2.1 [("total_issues", PyVal.int 4)] 4 rfl).1,
   (quality_score_bounds.2.2.1 [("total_issues", PyVal.int 4)] 4 rfl).2 (by decide),
   quality_score_bounds.2.1 [] rfl⟩
